import Mathlib

/-!
Verification of the tile-cache proxy in
`src/maptiler-gosif-proxy/src/main.ts` (a Cloudflare Worker).

The worker exports a single `fetch(request, env, ctx)` handler.  We give a
shallow embedding of that handler as a pure Lean function: the request is a
record of method, URL pathname and headers; the environment is the optional
`MAPTILER_API_KEY` string; the shared cache store (`caches.default`) is an
association list from URL to stored response; the upstream network is an
oracle mapping a fetched URL to either a response or a thrown error message.
The handler result records the client response, the cache state after the
(fire-and-forget) `cache.put`, the list of upstream URLs fetched, the list
of cache writes performed, and the cache key the handler derived — the last
three are observational instrumentation of effects the JS code performs.
-/

/-- An incoming HTTP request as seen by the worker: `request.method`, the
pathname of `new URL(request.url)`, and `request.headers` as a list of
name/value pairs (every header name in the worker is written with a single
fixed casing, so case-insensitive lookup is not modelled). -/
structure Request where
  method : String
  pathname : String
  headers : List (String × String)
deriving DecidableEq

/-- An HTTP response: status code, status text, optional body payload
(bytes modelled as a string), and headers. -/
structure Response where
  status : Nat
  statusText : String
  body : Option String
  headers : List (String × String)
deriving DecidableEq

/-- The `response.ok` flag of the Fetch API: status in the range 200..299. -/
def Response.ok (r : Response) : Bool :=
  200 ≤ r.status && r.status ≤ 299

/-- Lookup `headers.get(name)`: the value of the first header with that name. -/
def headersGet (hs : List (String × String)) (name : String) : Option String :=
  match hs with
  | [] => none
  | (n, v) :: t => if n = name then some v else headersGet t name

/-- Update `headers.set(name, v)`: replace the header if present, append otherwise. -/
def headersSet (hs : List (String × String)) (name v : String) : List (String × String) :=
  match hs with
  | [] => [(name, v)]
  | (n, w) :: t => if n = name then (name, v) :: t else (n, w) :: headersSet t name v

/-- The cache key the worker builds:
`new Request(url, { method: "GET", headers: request.headers })`. -/
structure CacheKey where
  url : String
  method : String
  headers : List (String × String)
deriving DecidableEq

/-- The shared cache store `caches.default`.  The Cache API keys entries by
the request URL, so we model the store as an association list from URL to
stored response. -/
abbrev Cache := List (String × Response)

/-- Lookup `cache.match(key)`: the stored response for the key URL, if any. -/
def cacheMatch (c : Cache) (k : CacheKey) : Option Response :=
  match c with
  | [] => none
  | (u, r) :: t => if u = k.url then some r else cacheMatch t k

/-- Store `cache.put(key, response)`: store under the key URL.  The new entry is
prepended; since `cacheMatch` returns the first entry for a URL this models
put-replaces-previous-entry semantics. -/
def cachePut (c : Cache) (k : CacheKey) (r : Response) : Cache :=
  (k.url, r) :: c

/-- Outcome of the upstream `fetch(tileUrl, ...)` call: either a resolved
response or a thrown error carrying `error.message`. -/
inductive UpstreamResult where
  | resp (r : Response)
  | err (msg : String)
deriving DecidableEq

/-- The upstream network, as an oracle from fetched URL to outcome. -/
abbrev Upstream := String → UpstreamResult

/-- The JavaScript falsy test `!apiKey` on the optional env binding: true when the
binding is absent or the empty string. -/
def isFalsy (k : Option String) : Bool :=
  match k with
  | none => true
  | some s => s = ""

/-- The upstream tile URL the worker constructs:
`https://api.maptiler.com/tiles/v3-4326/${z}/${x}/${y}.pbf?key=${apiKey}`. -/
def tileUrl (z x y apiKey : String) : String :=
  "https://api.maptiler.com/tiles/v3-4326/" ++ z ++ "/" ++ x ++ "/" ++ y ++
    ".pbf?key=" ++ apiKey

/-- The URL of the cache key the worker derives: the same tile path without
the API key query parameter. -/
def cacheKeyUrl (z x y : String) : String :=
  "https://api.maptiler.com/tiles/v3-4326/" ++ z ++ "/" ++ x ++ "/" ++ y ++ ".pbf"

/-- A nonempty maximal digit run at the start of the string (the greedy
`\d+` of the regex: maximality is forced because the character after the
run, if any, is not a digit). -/
def digitRun (s : List Char) : Option (List Char × List Char) :=
  if s.takeWhile Char.isDigit = [] then none
  else some (s.takeWhile Char.isDigit, s.dropWhile Char.isDigit)

/-- A literal `/` at the start of the string. -/
def expectSlash (s : List Char) : Option (List Char) :=
  match s with
  | [] => none
  | c :: t => if c = '/' then some t else none

/-- One step of the regex `/(\d+)\/(\d+)\/(\d+)\.pbf$/`: does the string
starting here match `digits/digits/digits.pbf` exactly to the end? -/
def matchTileSuffix (s : List Char) : Option (List Char × List Char × List Char) :=
  (digitRun s).bind fun p1 =>
  (expectSlash p1.2).bind fun s2 =>
  (digitRun s2).bind fun p2 =>
  (expectSlash p2.2).bind fun s3 =>
  (digitRun s3).bind fun p3 =>
  if p3.2 = ['.', 'p', 'b', 'f'] then some (p1.1, p2.1, p3.1) else none

/-- The regex search `pathname.match(/(\d+)\/(\d+)\/(\d+)\.pbf$/)`: the leftmost position at
which `digits/digits/digits.pbf` matches, anchored at the end of the string;
returns the three captured digit runs. -/
def tileMatch : List Char → Option (List Char × List Char × List Char)
  | [] => none
  | c :: rest =>
    match matchTileSuffix (c :: rest) with
    | some r => some r
    | none => tileMatch rest

/-- The observable outcome of one invocation of the worker `fetch` handler. -/
structure HandlerResult where
  response : Response
  cache : Cache
  upstreamUrls : List String
  cacheWrites : List (String × Response)
  derivedKey : Option CacheKey
deriving DecidableEq

/-- Shallow embedding of the worker `fetch` handler of
`src/maptiler-gosif-proxy/src/main.ts`, branch for branch:
missing-key 500 check, OPTIONS preflight, tile-path match, cache lookup,
upstream fetch inside try/catch, non-ok propagation, and the miss path that
returns the body while writing a fixed-header copy to the cache. -/
def handleFetch (request : Request) (envKey : Option String) (cache : Cache)
    (upstream : Upstream) : HandlerResult :=
  if isFalsy envKey then
    let resp : Response :=
      { status := 500, statusText := "",
        body := some "MapTiler API key is not configured",
        headers := [("Access-Control-Allow-Origin", "*")] }
    { response := resp, cache := cache, upstreamUrls := [], cacheWrites := [],
      derivedKey := none }
  else
    let apiKey := envKey.getD ""
    if request.method = "OPTIONS" then
      let resp : Response :=
        { status := 204, statusText := "", body := none,
          headers := [("Access-Control-Allow-Origin", "*"),
                      ("Access-Control-Allow-Methods", "GET,OPTIONS"),
                      ("Access-Control-Allow-Headers", "Content-Type"),
                      ("Access-Control-Max-Age", "86400")] }
      { response := resp, cache := cache, upstreamUrls := [], cacheWrites := [],
        derivedKey := none }
    else
      match tileMatch request.pathname.data with
      | none =>
        let resp : Response :=
          { status := 400, statusText := "",
            body := some "Invalid tile request",
            headers := [("Access-Control-Allow-Origin", "*")] }
        { response := resp, cache := cache, upstreamUrls := [], cacheWrites := [],
          derivedKey := none }
      | some (zc, xc, yc) =>
        let z := String.mk zc
        let x := String.mk xc
        let y := String.mk yc
        let tUrl := tileUrl z x y apiKey
        let cacheKey : CacheKey :=
          { url := cacheKeyUrl z x y, method := "GET", headers := request.headers }
        match cacheMatch cache cacheKey with
        | some response =>
          let resp : Response :=
            { status := 200, statusText := "",
              body := response.body,
              headers := [("Content-Type", "application/x-protobuf"),
                          ("Access-Control-Allow-Origin", "*"),
                          ("Cache-Control", "public, max-age=86400"),
                          ("CF-Cache-Status", "HIT"),
                          ("Age", (headersGet response.headers "Age").getD "0")] }
          { response := resp, cache := cache, upstreamUrls := [], cacheWrites := [],
            derivedKey := some cacheKey }
        | none =>
          match upstream tUrl with
          | .err msg =>
            let resp : Response :=
              { status := 500, statusText := "",
                body := some ("Error fetching tile: " ++ msg),
                headers := [("Access-Control-Allow-Origin", "*")] }
            { response := resp, cache := cache, upstreamUrls := [tUrl],
              cacheWrites := [], derivedKey := some cacheKey }
          | .resp r =>
            if r.ok then
              let responseHeaders :=
                headersSet (headersSet (headersSet (headersSet r.headers
                  "Content-Type" "application/x-protobuf")
                  "Access-Control-Allow-Origin" "*")
                  "Cache-Control" "public, max-age=86400")
                  "CF-Cache-Status" "MISS"
              let finalResponse : Response :=
                { status := 200, statusText := "", body := r.body,
                  headers := responseHeaders }
              let cacheResponse : Response :=
                { status := 200, statusText := "", body := r.body,
                  headers := [("Content-Type", "application/x-protobuf"),
                              ("Cache-Control", "public, max-age=86400")] }
              { response := finalResponse,
                cache := cachePut cache cacheKey cacheResponse,
                upstreamUrls := [tUrl],
                cacheWrites := [(cacheKey.url, cacheResponse)],
                derivedKey := some cacheKey }
            else
              let resp : Response :=
                { status := r.status, statusText := "",
                  body := some ("Failed to fetch tile: " ++ r.statusText),
                  headers := [("Access-Control-Allow-Origin", "*")] }
              { response := resp, cache := cache, upstreamUrls := [tUrl],
                cacheWrites := [], derivedKey := some cacheKey }

/-! ## Supporting lemmas about the tile-path matcher -/

theorem strData_append (a b : String) : (a ++ b).data = a.data ++ b.data := rfl

/-- Taking the digit run of a digit block followed by a non-digit splits at
the block boundary. -/
theorem takeWhile_digit_split (l1 : List Char) (c : Char) (l2 : List Char)
    (h1 : ∀ a ∈ l1, a.isDigit = true) (hc : c.isDigit = false) :
    (l1 ++ c :: l2).takeWhile Char.isDigit = l1 ∧
      (l1 ++ c :: l2).dropWhile Char.isDigit = c :: l2 := by
  induction l1 with
  | nil => simp [List.takeWhile_cons, List.dropWhile_cons, hc]
  | cons a t ih =>
    have ha : a.isDigit = true := h1 a (by simp)
    have ht : ∀ b ∈ t, b.isDigit = true := fun b hb => h1 b (by simp [hb])
    obtain ⟨h2, h3⟩ := ih ht
    simp [List.takeWhile_cons, List.dropWhile_cons, ha, h2, h3]

theorem digitRun_split (l1 : List Char) (c : Char) (l2 : List Char)
    (hne : l1 ≠ []) (h1 : ∀ a ∈ l1, a.isDigit = true) (hc : c.isDigit = false) :
    digitRun (l1 ++ c :: l2) = some (l1, c :: l2) := by
  obtain ⟨ht, hd⟩ := takeWhile_digit_split l1 c l2 h1 hc
  simp [digitRun, ht, hd, hne]

theorem digitRun_inv {s z r : List Char} (h : digitRun s = some (z, r)) :
    s = z ++ r ∧ z ≠ [] ∧ ∀ a ∈ z, a.isDigit = true := by
  unfold digitRun at h
  split at h
  · cases h
  · next hne =>
    rw [Option.some.injEq, Prod.mk.injEq] at h
    obtain ⟨rfl, rfl⟩ := h
    refine ⟨(List.takeWhile_append_dropWhile Char.isDigit s).symm, hne, ?_⟩
    intro a ha
    exact List.mem_takeWhile_imp ha

theorem expectSlash_inv {s t : List Char} (h : expectSlash s = some t) :
    s = '/' :: t := by
  cases s with
  | nil => cases h
  | cons c t2 =>
    by_cases hc : c = '/'
    · subst hc
      have h2 : some t2 = some t := by simpa [expectSlash] using h
      rw [Option.some.injEq] at h2
      rw [h2]
    · simp [expectSlash, hc] at h

theorem matchTileSuffix_of_shape (z x y : List Char)
    (hz : z ≠ []) (hx : x ≠ []) (hy : y ≠ [])
    (hzd : ∀ a ∈ z, a.isDigit = true) (hxd : ∀ a ∈ x, a.isDigit = true)
    (hyd : ∀ a ∈ y, a.isDigit = true) :
    matchTileSuffix (z ++ '/' :: (x ++ '/' :: (y ++ ['.', 'p', 'b', 'f']))) =
      some (z, x, y) := by
  have h1 := digitRun_split z '/' (x ++ '/' :: (y ++ ['.', 'p', 'b', 'f'])) hz hzd
    (by decide)
  have h2 := digitRun_split x '/' (y ++ ['.', 'p', 'b', 'f']) hx hxd (by decide)
  have h3 : digitRun (y ++ ['.', 'p', 'b', 'f']) = some (y, ['.', 'p', 'b', 'f']) :=
    digitRun_split y '.' ['p', 'b', 'f'] hy hyd (by decide)
  simp [matchTileSuffix, h1, h2, h3, expectSlash]

theorem matchTileSuffix_inv {s z x y : List Char}
    (h : matchTileSuffix s = some (z, x, y)) :
    s = z ++ '/' :: (x ++ '/' :: (y ++ ['.', 'p', 'b', 'f'])) ∧
      z ≠ [] ∧ x ≠ [] ∧ y ≠ [] ∧
      (∀ a ∈ z, a.isDigit = true) ∧ (∀ a ∈ x, a.isDigit = true) ∧
      (∀ a ∈ y, a.isDigit = true) := by
  simp only [matchTileSuffix, Option.bind_eq_some] at h
  obtain ⟨⟨z1, r1⟩, hp1, s2, hs2, ⟨x1, r2⟩, hp2, s3, hs3, ⟨y1, r3⟩, hp3, hfin⟩ := h
  dsimp only at hfin hs2 hs3
  split at hfin
  · next hpbf =>
    rw [Option.some.injEq, Prod.mk.injEq, Prod.mk.injEq] at hfin
    obtain ⟨rfl, rfl, rfl⟩ := hfin
    obtain ⟨he1, hne1, hd1⟩ := digitRun_inv hp1
    obtain ⟨he2, hne2, hd2⟩ := digitRun_inv hp2
    obtain ⟨he3, hne3, hd3⟩ := digitRun_inv hp3
    have hsl2 := expectSlash_inv hs2
    have hsl3 := expectSlash_inv hs3
    subst hpbf hsl2 hsl3 he2 he3
    exact ⟨he1, hne1, hne2, hne3, hd1, hd2, hd3⟩
  · cases hfin

/-- Number of `/` characters in a character list. -/
def slashes : List Char → Nat
  | [] => 0
  | c :: t => (if c = '/' then 1 else 0) + slashes t

theorem slashes_append (a b : List Char) :
    slashes (a ++ b) = slashes a + slashes b := by
  induction a with
  | nil => simp [slashes]
  | cons c t ih => simp [slashes, ih]; omega

theorem slashes_of_digits (l : List Char) (h : ∀ a ∈ l, a.isDigit = true) :
    slashes l = 0 := by
  induction l with
  | nil => rfl
  | cons c t ih =>
    have hc : c.isDigit = true := h c (by simp)
    have hcs : c ≠ '/' := by
      intro hq; rw [hq] at hc; exact absurd hc (by decide)
    have ht : ∀ a ∈ t, a.isDigit = true := fun a ha => h a (by simp [ha])
    simp [slashes, hcs, ih ht]

/-- The exact end-anchored suffix shape contains exactly two slashes. -/
theorem slashes_of_shape (z x y : List Char)
    (hzd : ∀ a ∈ z, a.isDigit = true) (hxd : ∀ a ∈ x, a.isDigit = true)
    (hyd : ∀ a ∈ y, a.isDigit = true) :
    slashes (z ++ '/' :: (x ++ '/' :: (y ++ ['.', 'p', 'b', 'f']))) = 2 := by
  have hz0 := slashes_of_digits z hzd
  have hx0 := slashes_of_digits x hxd
  have hy0 := slashes_of_digits y hyd
  have hp : slashes ['.', 'p', 'b', 'f'] = 0 := by decide
  simp [slashes_append, slashes, hz0, hx0, hy0, hp]

/-- Anything the anchored suffix matcher accepts has exactly two slashes. -/
theorem matchTileSuffix_slashes {s z x y : List Char}
    (h : matchTileSuffix s = some (z, x, y)) : slashes s = 2 := by
  obtain ⟨hs, _, _, _, hzd, hxd, hyd⟩ := matchTileSuffix_inv h
  rw [hs]
  exact slashes_of_shape z x y hzd hxd hyd

/-- Every triple the regex search captures consists of nonempty digit runs. -/
theorem tileMatch_digits {s z x y : List Char} (h : tileMatch s = some (z, x, y)) :
    z ≠ [] ∧ x ≠ [] ∧ y ≠ [] ∧
      (∀ a ∈ z, a.isDigit = true) ∧ (∀ a ∈ x, a.isDigit = true) ∧
      (∀ a ∈ y, a.isDigit = true) := by
  induction s with
  | nil => cases h
  | cons c rest ih =>
    rw [tileMatch] at h
    cases hm : matchTileSuffix (c :: rest) with
    | some v =>
      rw [hm] at h
      rw [Option.some.injEq] at h
      subst h
      obtain ⟨_, h1, h2, h3, h4, h5, h6⟩ := matchTileSuffix_inv hm
      exact ⟨h1, h2, h3, h4, h5, h6⟩
    | none =>
      rw [hm] at h
      exact ih h

/-- The leftmost end-anchored match of a path whose last three segments are
nonempty digit runs captures exactly those three runs: any earlier start
would contain at least three slashes, while a successful match contains
exactly two. -/
theorem tileMatch_of_shape (pre z x y : List Char)
    (hz : z ≠ []) (hx : x ≠ []) (hy : y ≠ [])
    (hzd : ∀ a ∈ z, a.isDigit = true) (hxd : ∀ a ∈ x, a.isDigit = true)
    (hyd : ∀ a ∈ y, a.isDigit = true) :
    tileMatch (pre ++ '/' :: (z ++ '/' :: (x ++ '/' :: (y ++ ['.', 'p', 'b', 'f'])))) =
      some (z, x, y) := by
  induction pre with
  | nil =>
    have hms : matchTileSuffix
        ('/' :: (z ++ '/' :: (x ++ '/' :: (y ++ ['.', 'p', 'b', 'f'])))) = none := by
      have htw : (('/' : Char) :: (z ++ '/' :: (x ++ '/' :: (y ++
          ['.', 'p', 'b', 'f'])))).takeWhile Char.isDigit = [] := by
        simp [List.takeWhile_cons]
      simp [matchTileSuffix, digitRun, htw]
    obtain ⟨zh, zt, rfl⟩ := List.exists_cons_of_ne_nil hz
    rw [List.nil_append, tileMatch, hms]
    rw [List.cons_append, tileMatch]
    rw [← List.cons_append, matchTileSuffix_of_shape (zh :: zt) x y hz hx hy hzd hxd hyd]
  | cons p pt ih =>
    have hsl : slashes (p :: (pt ++ '/' :: (z ++ '/' :: (x ++ '/' ::
        (y ++ ['.', 'p', 'b', 'f']))))) ≠ 2 := by
      have h2 := slashes_of_shape z x y hzd hxd hyd
      simp [slashes, slashes_append, h2]
      intro hfalse
      omega
    have hms : matchTileSuffix (p :: (pt ++ '/' :: (z ++ '/' :: (x ++ '/' ::
        (y ++ ['.', 'p', 'b', 'f']))))) = none := by
      cases hm : matchTileSuffix (p :: (pt ++ '/' :: (z ++ '/' :: (x ++ '/' ::
          (y ++ ['.', 'p', 'b', 'f']))))) with
      | none => rfl
      | some v =>
        obtain ⟨a, b, c⟩ := v
        exact absurd (matchTileSuffix_slashes hm) hsl
    rw [List.cons_append, tileMatch, hms]
    exact ih

/-! ## Handler-level lemmas -/

theorem isFalsy_some_ne {k : String} (hk : k ≠ "") : isFalsy (some k) = false := by
  simp [isFalsy, hk]

theorem append_ne_empty_left (a b : String) (ha : a ≠ "") : a ++ b ≠ "" := by
  intro h
  apply ha
  have hd : a.data ++ b.data = [] := by
    have h2 := congrArg String.data h
    rw [strData_append] at h2
    exact h2
  have h3 : a.data = [] := (List.append_eq_nil.mp hd).1
  cases a
  simp at h3
  rw [h3]

/-! ## Claims -/

/-- C2: if the server-side credential `MAPTILER_API_KEY` is not configured
(absent or the empty string, hence falsy), every request — any path, any
method — is answered 500 before any upstream interaction: the handler
performs zero upstream fetch calls and writes nothing to the cache. -/
theorem missing_credential_500_no_upstream (req : Request) (k : Option String)
    (c : Cache) (u : Upstream) (hk : isFalsy k = true) :
    (handleFetch req k c u).response.status = 500 ∧
      (handleFetch req k c u).upstreamUrls.length = 0 ∧
      (handleFetch req k c u).cacheWrites = [] := by
  simp [handleFetch, hk]

theorem missing_credential_500_no_upstream_witness :
    isFalsy none = true ∧
      ((handleFetch ⟨"GET", "/1/2/3.pbf", []⟩ none []
            (fun _ => .resp ⟨200, "OK", some "tile", []⟩)).response.status = 500 ∧
        (handleFetch ⟨"GET", "/1/2/3.pbf", []⟩ none []
            (fun _ => .resp ⟨200, "OK", some "tile", []⟩)).upstreamUrls.length = 0 ∧
        (handleFetch ⟨"GET", "/1/2/3.pbf", []⟩ none []
            (fun _ => .resp ⟨200, "OK", some "tile", []⟩)).cacheWrites = []) :=
  ⟨rfl, missing_credential_500_no_upstream _ _ _ _ rfl⟩

/-- C4: with the credential configured, every OPTIONS request — to any path —
returns 204 with no body and the fixed permissive CORS headers, including the
24-hour preflight cache lifetime `Access-Control-Max-Age: 86400`, without any
upstream call and without touching the cache. -/
theorem options_preflight_204 (req : Request) (k : Option String) (c : Cache)
    (u : Upstream) (hk : isFalsy k = false) (hm : req.method = "OPTIONS") :
    (handleFetch req k c u).response =
        { status := 204, statusText := "", body := none,
          headers := [("Access-Control-Allow-Origin", "*"),
                      ("Access-Control-Allow-Methods", "GET,OPTIONS"),
                      ("Access-Control-Allow-Headers", "Content-Type"),
                      ("Access-Control-Max-Age", "86400")] } ∧
      (handleFetch req k c u).upstreamUrls = [] ∧
      (handleFetch req k c u).cacheWrites = [] := by
  simp [handleFetch, hk, hm]

theorem options_preflight_204_witness :
    isFalsy (some "secret") = false ∧
      (⟨"OPTIONS", "/any/path", []⟩ : Request).method = "OPTIONS" ∧
      ((handleFetch ⟨"OPTIONS", "/any/path", []⟩ (some "secret") []
            (fun _ => .err "boom")).response =
          { status := 204, statusText := "", body := none,
            headers := [("Access-Control-Allow-Origin", "*"),
                        ("Access-Control-Allow-Methods", "GET,OPTIONS"),
                        ("Access-Control-Allow-Headers", "Content-Type"),
                        ("Access-Control-Max-Age", "86400")] } ∧
        (handleFetch ⟨"OPTIONS", "/any/path", []⟩ (some "secret") []
            (fun _ => .err "boom")).upstreamUrls = [] ∧
        (handleFetch ⟨"OPTIONS", "/any/path", []⟩ (some "secret") []
            (fun _ => .err "boom")).cacheWrites = []) :=
  ⟨rfl, rfl, options_preflight_204 _ _ _ _ rfl rfl⟩

/-- C3 as stated is false on the code: the worker never inspects the HTTP
method apart from the OPTIONS preflight, so a POST request whose path
matches the tile pattern is processed as a tile request — here it reaches
upstream (one fetch call) and is answered 200 — instead of being rejected
with 400 and no upstream call. -/
theorem non_get_tile_request_processed :
    (handleFetch ⟨"POST", "/1/2/3.pbf", []⟩ (some "k") []
        (fun _ => .resp ⟨200, "OK", some "tile", []⟩)).response.status = 200 ∧
      (handleFetch ⟨"POST", "/1/2/3.pbf", []⟩ (some "k") []
        (fun _ => .resp ⟨200, "OK", some "tile", []⟩)).upstreamUrls.length = 1 := by
  constructor <;> rfl

/-- C3 amended: with the credential configured, every non-OPTIONS request
whose path does not match the tile pattern is rejected with 400 and no
upstream call or cache write; the method is not otherwise inspected, so a
non-GET request with a matching path is processed as a tile request. -/
theorem bad_path_400 (req : Request) (k : Option String) (c : Cache)
    (u : Upstream) (hk : isFalsy k = false) (hm : req.method ≠ "OPTIONS")
    (hp : tileMatch req.pathname.data = none) :
    (handleFetch req k c u).response.status = 400 ∧
      (handleFetch req k c u).response.body = some "Invalid tile request" ∧
      (handleFetch req k c u).upstreamUrls = [] ∧
      (handleFetch req k c u).cacheWrites = [] := by
  simp [handleFetch, hk, hm, hp]

theorem bad_path_400_witness :
    isFalsy (some "k") = false ∧
      (⟨"GET", "/abc/tiles", []⟩ : Request).method ≠ "OPTIONS" ∧
      tileMatch ("/abc/tiles" : String).data = none ∧
      ((handleFetch ⟨"GET", "/abc/tiles", []⟩ (some "k") []
            (fun _ => .err "boom")).response.status = 400 ∧
        (handleFetch ⟨"GET", "/abc/tiles", []⟩ (some "k") []
            (fun _ => .err "boom")).response.body = some "Invalid tile request" ∧
        (handleFetch ⟨"GET", "/abc/tiles", []⟩ (some "k") []
            (fun _ => .err "boom")).upstreamUrls = [] ∧
        (handleFetch ⟨"GET", "/abc/tiles", []⟩ (some "k") []
            (fun _ => .err "boom")).cacheWrites = []) :=
  ⟨rfl, by decide, rfl, bad_path_400 _ _ _ _ rfl (by decide) rfl⟩

/-- C6: on a valid tile request that misses the cache, a non-2xx upstream
response is propagated to the caller — same status, upstream status text in
the message — with no cache write and exactly one upstream fetch (no
retry). -/
theorem upstream_error_propagated (req : Request) (k : String) (c : Cache)
    (u : Upstream) (zc xc yc : List Char) (r : Response)
    (hk : k ≠ "") (hm : req.method ≠ "OPTIONS")
    (hp : tileMatch req.pathname.data = some (zc, xc, yc))
    (hc : cacheMatch c ⟨cacheKeyUrl (String.mk zc) (String.mk xc) (String.mk yc),
      "GET", req.headers⟩ = none)
    (hu : u (tileUrl (String.mk zc) (String.mk xc) (String.mk yc) k) = .resp r)
    (hr : r.ok = false) :
    (handleFetch req (some k) c u).response.status = r.status ∧
      (handleFetch req (some k) c u).response.body =
        some ("Failed to fetch tile: " ++ r.statusText) ∧
      (handleFetch req (some k) c u).cacheWrites = [] ∧
      (handleFetch req (some k) c u).cache = c ∧
      (handleFetch req (some k) c u).upstreamUrls.length = 1 := by
  simp [handleFetch, isFalsy_some_ne hk, hm, hp, hc, hu, hr]

theorem upstream_error_propagated_witness :
    ("k" : String) ≠ "" ∧
      (⟨"GET", "/1/2/3.pbf", []⟩ : Request).method ≠ "OPTIONS" ∧
      tileMatch ("/1/2/3.pbf" : String).data = some (['1'], ['2'], ['3']) ∧
      cacheMatch [] ⟨cacheKeyUrl (String.mk ['1']) (String.mk ['2'])
        (String.mk ['3']), "GET", []⟩ = none ∧
      (fun _ => UpstreamResult.resp ⟨404, "Not Found", none, []⟩ : Upstream)
        (tileUrl (String.mk ['1']) (String.mk ['2']) (String.mk ['3']) "k") =
        .resp ⟨404, "Not Found", none, []⟩ ∧
      Response.ok ⟨404, "Not Found", none, []⟩ = false ∧
      ((handleFetch ⟨"GET", "/1/2/3.pbf", []⟩ (some "k") []
            (fun _ => .resp ⟨404, "Not Found", none, []⟩)).response.status = 404 ∧
        (handleFetch ⟨"GET", "/1/2/3.pbf", []⟩ (some "k") []
            (fun _ => .resp ⟨404, "Not Found", none, []⟩)).response.body =
          some ("Failed to fetch tile: " ++ "Not Found") ∧
        (handleFetch ⟨"GET", "/1/2/3.pbf", []⟩ (some "k") []
            (fun _ => .resp ⟨404, "Not Found", none, []⟩)).cacheWrites = [] ∧
        (handleFetch ⟨"GET", "/1/2/3.pbf", []⟩ (some "k") []
            (fun _ => .resp ⟨404, "Not Found", none, []⟩)).cache = [] ∧
        (handleFetch ⟨"GET", "/1/2/3.pbf", []⟩ (some "k") []
            (fun _ => .resp ⟨404, "Not Found", none, []⟩)).upstreamUrls.length = 1) :=
  ⟨by decide, by decide, rfl, rfl, rfl, by decide,
    upstream_error_propagated ⟨"GET", "/1/2/3.pbf", []⟩ "k" []
      (fun _ => .resp ⟨404, "Not Found", none, []⟩) ['1'] ['2'] ['3']
      ⟨404, "Not Found", none, []⟩ (by decide) (by decide) rfl rfl rfl (by decide)⟩

/-- C7: on a valid tile request that misses the cache, a thrown upstream
fetch error is reported as a 500 response carrying the underlying error
message and the permissive CORS header, with no cache write and exactly one
upstream fetch (no retry). -/
theorem transport_error_500 (req : Request) (k : String) (c : Cache)
    (u : Upstream) (zc xc yc : List Char) (msg : String)
    (hk : k ≠ "") (hm : req.method ≠ "OPTIONS")
    (hp : tileMatch req.pathname.data = some (zc, xc, yc))
    (hc : cacheMatch c ⟨cacheKeyUrl (String.mk zc) (String.mk xc) (String.mk yc),
      "GET", req.headers⟩ = none)
    (hu : u (tileUrl (String.mk zc) (String.mk xc) (String.mk yc) k) = .err msg) :
    (handleFetch req (some k) c u).response =
        { status := 500, statusText := "",
          body := some ("Error fetching tile: " ++ msg),
          headers := [("Access-Control-Allow-Origin", "*")] } ∧
      (handleFetch req (some k) c u).cacheWrites = [] ∧
      (handleFetch req (some k) c u).cache = c ∧
      (handleFetch req (some k) c u).upstreamUrls.length = 1 := by
  simp [handleFetch, isFalsy_some_ne hk, hm, hp, hc, hu]

theorem transport_error_500_witness :
    ("k" : String) ≠ "" ∧
      (⟨"GET", "/1/2/3.pbf", []⟩ : Request).method ≠ "OPTIONS" ∧
      tileMatch ("/1/2/3.pbf" : String).data = some (['1'], ['2'], ['3']) ∧
      cacheMatch [] ⟨cacheKeyUrl (String.mk ['1']) (String.mk ['2'])
        (String.mk ['3']), "GET", []⟩ = none ∧
      (fun _ => UpstreamResult.err "connection reset" : Upstream)
        (tileUrl (String.mk ['1']) (String.mk ['2']) (String.mk ['3']) "k") =
        .err "connection reset" ∧
      ((handleFetch ⟨"GET", "/1/2/3.pbf", []⟩ (some "k") []
            (fun _ => .err "connection reset")).response =
          { status := 500, statusText := "",
            body := some ("Error fetching tile: " ++ "connection reset"),
            headers := [("Access-Control-Allow-Origin", "*")] } ∧
        (handleFetch ⟨"GET", "/1/2/3.pbf", []⟩ (some "k") []
            (fun _ => .err "connection reset")).cacheWrites = [] ∧
        (handleFetch ⟨"GET", "/1/2/3.pbf", []⟩ (some "k") []
            (fun _ => .err "connection reset")).cache = [] ∧
        (handleFetch ⟨"GET", "/1/2/3.pbf", []⟩ (some "k") []
            (fun _ => .err "connection reset")).upstreamUrls.length = 1) :=
  ⟨by decide, by decide, rfl, rfl, rfl,
    transport_error_500 ⟨"GET", "/1/2/3.pbf", []⟩ "k" []
      (fun _ => .err "connection reset") ['1'] ['2'] ['3'] "connection reset"
      (by decide) (by decide) rfl rfl rfl⟩

/-- C5: on a valid tile request that misses the cache and succeeds upstream,
the miss response carries the upstream body; a subsequent identical request
is served from the cache with status 200, the same bytes, content type
`application/x-protobuf` and a `CF-Cache-Status: HIT` indicator, with no
upstream call; and a third identical request returns a response identical to
the second (warm-cache idempotence). -/
theorem tile_roundtrip_idempotent (req : Request) (k : String) (c : Cache)
    (u u2 u3 : Upstream) (zc xc yc : List Char) (r : Response)
    (hk : k ≠ "") (hm : req.method ≠ "OPTIONS")
    (hp : tileMatch req.pathname.data = some (zc, xc, yc))
    (hc : cacheMatch c ⟨cacheKeyUrl (String.mk zc) (String.mk xc) (String.mk yc),
      "GET", req.headers⟩ = none)
    (hu : u (tileUrl (String.mk zc) (String.mk xc) (String.mk yc) k) = .resp r)
    (hok : r.ok = true) :
    (handleFetch req (some k) c u).response.body = r.body ∧
      (handleFetch req (some k)
          ((handleFetch req (some k) c u).cache) u2).response.status = 200 ∧
      (handleFetch req (some k)
          ((handleFetch req (some k) c u).cache) u2).response.body = r.body ∧
      headersGet (handleFetch req (some k)
          ((handleFetch req (some k) c u).cache) u2).response.headers
        "Content-Type" = some "application/x-protobuf" ∧
      headersGet (handleFetch req (some k)
          ((handleFetch req (some k) c u).cache) u2).response.headers
        "CF-Cache-Status" = some "HIT" ∧
      (handleFetch req (some k)
          ((handleFetch req (some k) c u).cache) u2).upstreamUrls = [] ∧
      (handleFetch req (some k)
          ((handleFetch req (some k)
            ((handleFetch req (some k) c u).cache) u2).cache) u3).response =
        (handleFetch req (some k)
          ((handleFetch req (some k) c u).cache) u2).response := by
  simp [handleFetch, isFalsy_some_ne hk, hm, hp, hc, hu, hok, cachePut, cacheMatch,
    headersGet]

theorem tile_roundtrip_idempotent_witness :
    ("k" : String) ≠ "" ∧
      (⟨"GET", "/1/2/3.pbf", []⟩ : Request).method ≠ "OPTIONS" ∧
      tileMatch ("/1/2/3.pbf" : String).data = some (['1'], ['2'], ['3']) ∧
      cacheMatch [] ⟨cacheKeyUrl (String.mk ['1']) (String.mk ['2'])
        (String.mk ['3']), "GET", []⟩ = none ∧
      (fun _ => UpstreamResult.resp ⟨200, "OK", some "PBFBYTES", []⟩ : Upstream)
        (tileUrl (String.mk ['1']) (String.mk ['2']) (String.mk ['3']) "k") =
        .resp ⟨200, "OK", some "PBFBYTES", []⟩ ∧
      Response.ok ⟨200, "OK", some "PBFBYTES", []⟩ = true ∧
      ((handleFetch ⟨"GET", "/1/2/3.pbf", []⟩ (some "k") []
            (fun _ => .resp ⟨200, "OK", some "PBFBYTES", []⟩)).response.body =
          some "PBFBYTES" ∧
        (handleFetch ⟨"GET", "/1/2/3.pbf", []⟩ (some "k")
            ((handleFetch ⟨"GET", "/1/2/3.pbf", []⟩ (some "k") []
              (fun _ => .resp ⟨200, "OK", some "PBFBYTES", []⟩)).cache)
            (fun _ => .err "down")).response.status = 200 ∧
        (handleFetch ⟨"GET", "/1/2/3.pbf", []⟩ (some "k")
            ((handleFetch ⟨"GET", "/1/2/3.pbf", []⟩ (some "k") []
              (fun _ => .resp ⟨200, "OK", some "PBFBYTES", []⟩)).cache)
            (fun _ => .err "down")).response.body = some "PBFBYTES" ∧
        headersGet (handleFetch ⟨"GET", "/1/2/3.pbf", []⟩ (some "k")
            ((handleFetch ⟨"GET", "/1/2/3.pbf", []⟩ (some "k") []
              (fun _ => .resp ⟨200, "OK", some "PBFBYTES", []⟩)).cache)
            (fun _ => .err "down")).response.headers "Content-Type" =
          some "application/x-protobuf" ∧
        headersGet (handleFetch ⟨"GET", "/1/2/3.pbf", []⟩ (some "k")
            ((handleFetch ⟨"GET", "/1/2/3.pbf", []⟩ (some "k") []
              (fun _ => .resp ⟨200, "OK", some "PBFBYTES", []⟩)).cache)
            (fun _ => .err "down")).response.headers "CF-Cache-Status" =
          some "HIT" ∧
        (handleFetch ⟨"GET", "/1/2/3.pbf", []⟩ (some "k")
            ((handleFetch ⟨"GET", "/1/2/3.pbf", []⟩ (some "k") []
              (fun _ => .resp ⟨200, "OK", some "PBFBYTES", []⟩)).cache)
            (fun _ => .err "down")).upstreamUrls = [] ∧
        (handleFetch ⟨"GET", "/1/2/3.pbf", []⟩ (some "k")
            ((handleFetch ⟨"GET", "/1/2/3.pbf", []⟩ (some "k")
              ((handleFetch ⟨"GET", "/1/2/3.pbf", []⟩ (some "k") []
                (fun _ => .resp ⟨200, "OK", some "PBFBYTES", []⟩)).cache)
              (fun _ => .err "down")).cache) (fun _ => .err "down2")).response =
          (handleFetch ⟨"GET", "/1/2/3.pbf", []⟩ (some "k")
            ((handleFetch ⟨"GET", "/1/2/3.pbf", []⟩ (some "k") []
              (fun _ => .resp ⟨200, "OK", some "PBFBYTES", []⟩)).cache)
            (fun _ => .err "down")).response) :=
  ⟨by decide, by decide, rfl, rfl, rfl, by decide,
    tile_roundtrip_idempotent ⟨"GET", "/1/2/3.pbf", []⟩ "k" []
      (fun _ => .resp ⟨200, "OK", some "PBFBYTES", []⟩) (fun _ => .err "down")
      (fun _ => .err "down2") ['1'] ['2'] ['3'] ⟨200, "OK", some "PBFBYTES", []⟩
      (by decide) (by decide) rfl rfl rfl (by decide)⟩

/-- The cache key the handler derives is a function of the request alone:
for any configured credential, cache state and upstream behaviour it equals
the key computed from the matched path triple and the request headers. -/
theorem derivedKey_eq (req : Request) (k : String) (c : Cache) (u : Upstream)
    (hk : k ≠ "") :
    (handleFetch req (some k) c u).derivedKey =
      (if req.method = "OPTIONS" then none
       else match tileMatch req.pathname.data with
         | none => none
         | some (zc, xc, yc) =>
           some ⟨cacheKeyUrl (String.mk zc) (String.mk xc) (String.mk yc),
             "GET", req.headers⟩) := by
  have hf := isFalsy_some_ne hk
  by_cases hm : req.method = "OPTIONS"
  · simp [handleFetch, hf, hm]
  · cases hp : tileMatch req.pathname.data with
    | none => simp [handleFetch, hf, hm, hp]
    | some v =>
      obtain ⟨zc, xc, yc⟩ := v
      cases hcm : cacheMatch c ⟨cacheKeyUrl (String.mk zc) (String.mk xc)
          (String.mk yc), "GET", req.headers⟩ with
      | some stored => simp [handleFetch, hf, hm, hp, hcm]
      | none =>
        cases hu : u (tileUrl (String.mk zc) (String.mk xc) (String.mk yc) k) with
        | err msg => simp [handleFetch, hf, hm, hp, hcm, hu]
        | resp r =>
          by_cases hok : r.ok
          · simp [handleFetch, hf, hm, hp, hcm, hu, hok]
          · simp [handleFetch, hf, hm, hp, hcm, hu, hok]

/-- The derived cache-key URL is built from the fixed template and the digit
runs captured from the path, so it contains no `?` — in particular it
contains no query string at all. -/
theorem qmark_not_in_cacheKeyUrl (zc xc yc : List Char)
    (hzd : ∀ a ∈ zc, a.isDigit = true) (hxd : ∀ a ∈ xc, a.isDigit = true)
    (hyd : ∀ a ∈ yc, a.isDigit = true) :
    '?' ∉ (cacheKeyUrl (String.mk zc) (String.mk xc) (String.mk yc)).data := by
  intro hmem
  have hdata : (cacheKeyUrl (String.mk zc) (String.mk xc) (String.mk yc)).data =
      ("https://api.maptiler.com/tiles/v3-4326/" : String).data ++ zc ++ ['/'] ++
        xc ++ ['/'] ++ yc ++ ['.', 'p', 'b', 'f'] := rfl
  rw [hdata] at hmem
  simp only [List.mem_append, List.mem_singleton, List.mem_cons] at hmem
  rcases hmem with ((((((ht | hz) | hs1) | hx) | hs2) | hy) | hp)
  · exact absurd ht (by decide)
  · exact absurd (hzd '?' hz) (by decide)
  · exact absurd hs1 (by decide)
  · exact absurd (hxd '?' hx) (by decide)
  · exact absurd hs2 (by decide)
  · exact absurd (hyd '?' hy) (by decide)
  · rcases hp with h1 | h2 | h3 | h4
    · exact absurd h1 (by decide)
    · exact absurd h2 (by decide)
    · exact absurd h3 (by decide)
    · simp at h4

/-- The upstream URL is exactly the cache-key URL followed by the secret
query suffix: the credential lives only in the part the cache key strips. -/
theorem tileUrl_decompose (z x y k : String) :
    tileUrl z x y k = cacheKeyUrl z x y ++ "?key=" ++ k := by
  apply String.ext
  simp [tileUrl, cacheKeyUrl, strData_append, List.append_assoc, List.cons_append]

/-- C1: for every request and any two configured credential values the
handler derives the identical cache key (secret-independence), and whenever
a key is derived its URL contains no `?` at all — so the `?key=<secret>`
query suffix, the only place the secret occurs in the upstream URL (see
`tileUrl_decompose`), never occurs inside the cache key. -/
theorem cache_key_secret_independent (req : Request) (c : Cache)
    (u1 u2 : Upstream) (k1 k2 : String) (h1 : k1 ≠ "") (h2 : k2 ≠ "") :
    (handleFetch req (some k1) c u1).derivedKey =
        (handleFetch req (some k2) c u2).derivedKey ∧
      ∀ ck : CacheKey, (handleFetch req (some k1) c u1).derivedKey = some ck →
        '?' ∉ ck.url.data ∧
          ¬ List.IsInfix ("?key=" ++ k1).data ck.url.data := by
  constructor
  · rw [derivedKey_eq req k1 c u1 h1, derivedKey_eq req k2 c u2 h2]
  · intro ck hck
    rw [derivedKey_eq req k1 c u1 h1] at hck
    by_cases hm : req.method = "OPTIONS"
    · simp [hm] at hck
    · rw [if_neg hm] at hck
      cases hp : tileMatch req.pathname.data with
      | none => rw [hp] at hck; cases hck
      | some v =>
        obtain ⟨zc, xc, yc⟩ := v
        rw [hp] at hck
        rw [Option.some.injEq] at hck
        subst hck
        obtain ⟨_, _, _, hzd, hxd, hyd⟩ := tileMatch_digits hp
        have hq := qmark_not_in_cacheKeyUrl zc xc yc hzd hxd hyd
        refine ⟨hq, ?_⟩
        intro hinf
        obtain ⟨s, t, hst⟩ := hinf
        have hqm : '?' ∈ ("?key=" ++ k1).data := by
          rw [strData_append]
          exact List.mem_append_left _ (by decide)
        have hin : '?' ∈ s ++ ("?key=" ++ k1).data ++ t :=
          List.mem_append_left _ (List.mem_append_right _ hqm)
        rw [hst] at hin
        exact hq hin

theorem cache_key_secret_independent_witness :
    ("alpha" : String) ≠ "" ∧ ("beta" : String) ≠ "" ∧
      ((handleFetch ⟨"GET", "/1/2/3.pbf", []⟩ (some "alpha") []
            (fun _ => .err "a")).derivedKey =
          (handleFetch ⟨"GET", "/1/2/3.pbf", []⟩ (some "beta") []
            (fun _ => .err "b")).derivedKey ∧
        ('?' ∉ (⟨"https://api.maptiler.com/tiles/v3-4326/1/2/3.pbf", "GET", []⟩ :
            CacheKey).url.data ∧
          ¬ List.IsInfix ("?key=" ++ "alpha").data
            (⟨"https://api.maptiler.com/tiles/v3-4326/1/2/3.pbf", "GET", []⟩ :
              CacheKey).url.data)) := by
  refine ⟨by decide, by decide, ?_, ?_⟩
  · exact (cache_key_secret_independent ⟨"GET", "/1/2/3.pbf", []⟩ []
      (fun _ => .err "a") (fun _ => .err "b") "alpha" "beta" (by decide)
      (by decide)).1
  · exact (cache_key_secret_independent ⟨"GET", "/1/2/3.pbf", []⟩ []
      (fun _ => .err "a") (fun _ => .err "b") "alpha" "beta" (by decide)
      (by decide)).2
      ⟨"https://api.maptiler.com/tiles/v3-4326/1/2/3.pbf", "GET", []⟩ rfl

/-- C8: every error response the handler produces — any response whose
status is neither the 200 of a served tile nor the 204 of the preflight,
covering the missing-credential 500, the bad-request 400, a propagated
upstream error status and the transport-failure 500 — carries the
permissive CORS header `Access-Control-Allow-Origin: *` and an explicit
nonempty message body. -/
theorem error_responses_carry_cors (req : Request) (k : Option String)
    (c : Cache) (u : Upstream)
    (h200 : (handleFetch req k c u).response.status ≠ 200)
    (h204 : (handleFetch req k c u).response.status ≠ 204) :
    headersGet (handleFetch req k c u).response.headers
        "Access-Control-Allow-Origin" = some "*" ∧
      ∃ m, (handleFetch req k c u).response.body = some m ∧ m ≠ "" := by
  by_cases hf : isFalsy k = true
  · refine ⟨?_, "MapTiler API key is not configured", ?_, by decide⟩ <;>
      simp [handleFetch, hf, headersGet]
  · rw [Bool.not_eq_true] at hf
    by_cases hm : req.method = "OPTIONS"
    · exfalso
      apply h204
      simp [handleFetch, hf, hm]
    · cases hp : tileMatch req.pathname.data with
      | none =>
        refine ⟨?_, "Invalid tile request", ?_, by decide⟩ <;>
          simp [handleFetch, hf, hm, hp, headersGet]
      | some v =>
        obtain ⟨zc, xc, yc⟩ := v
        cases hcm : cacheMatch c ⟨cacheKeyUrl (String.mk zc) (String.mk xc)
            (String.mk yc), "GET", req.headers⟩ with
        | some stored =>
          exfalso
          apply h200
          simp [handleFetch, hf, hm, hp, hcm]
        | none =>
          cases hu : u (tileUrl (String.mk zc) (String.mk xc) (String.mk yc)
              (k.getD "")) with
          | err msg =>
            refine ⟨?_, "Error fetching tile: " ++ msg, ?_,
              append_ne_empty_left _ _ (by decide)⟩ <;>
              simp [handleFetch, hf, hm, hp, hcm, hu, headersGet]
          | resp r =>
            by_cases hok : r.ok = true
            · exfalso
              apply h200
              simp [handleFetch, hf, hm, hp, hcm, hu, hok]
            · refine ⟨?_, "Failed to fetch tile: " ++ r.statusText, ?_,
                append_ne_empty_left _ _ (by decide)⟩ <;>
                simp [handleFetch, hf, hm, hp, hcm, hu, hok, headersGet]

theorem error_responses_carry_cors_witness :
    (handleFetch ⟨"GET", "/abc/tiles", []⟩ (some "k") []
        (fun _ => .err "boom")).response.status ≠ 200 ∧
      (handleFetch ⟨"GET", "/abc/tiles", []⟩ (some "k") []
        (fun _ => .err "boom")).response.status ≠ 204 ∧
      (headersGet (handleFetch ⟨"GET", "/abc/tiles", []⟩ (some "k") []
          (fun _ => .err "boom")).response.headers
          "Access-Control-Allow-Origin" = some "*" ∧
        ∃ m, (handleFetch ⟨"GET", "/abc/tiles", []⟩ (some "k") []
          (fun _ => .err "boom")).response.body = some m ∧ m ≠ "") :=
  ⟨by decide, by decide,
    error_responses_carry_cors ⟨"GET", "/abc/tiles", []⟩ (some "k") []
      (fun _ => .err "boom") (by decide) (by decide)⟩

/-- C9: the tile regex is anchored only at the end of the path, so any
non-OPTIONS request whose path merely ends with three integer segments
followed by `.pbf` (for example `/anything/extra/1/2/3.pbf`) is accepted:
the captured triple is exactly the last three integer segments, the derived
cache key substitutes them into the credential-free template, and on a
cache miss the upstream URL fetched substitutes them into the tile
template. -/
theorem trailing_tile_segments_accepted (pre z x y : String) (req : Request)
    (k : String) (c : Cache) (u : Upstream)
    (hk : k ≠ "") (hm : req.method ≠ "OPTIONS")
    (hz : z.data ≠ []) (hx : x.data ≠ []) (hy : y.data ≠ [])
    (hzd : ∀ a ∈ z.data, a.isDigit = true)
    (hxd : ∀ a ∈ x.data, a.isDigit = true)
    (hyd : ∀ a ∈ y.data, a.isDigit = true)
    (hpath : req.pathname = pre ++ "/" ++ z ++ "/" ++ x ++ "/" ++ y ++ ".pbf")
    (hc : cacheMatch c ⟨cacheKeyUrl z x y, "GET", req.headers⟩ = none) :
    tileMatch req.pathname.data = some (z.data, x.data, y.data) ∧
      (handleFetch req (some k) c u).derivedKey =
        some ⟨cacheKeyUrl z x y, "GET", req.headers⟩ ∧
      (handleFetch req (some k) c u).upstreamUrls = [tileUrl z x y k] := by
  have hdata : req.pathname.data =
      pre.data ++ '/' :: (z.data ++ '/' :: (x.data ++ '/' ::
        (y.data ++ ['.', 'p', 'b', 'f']))) := by
    rw [hpath]
    simp only [strData_append]
    simp [List.append_assoc, List.singleton_append]
  have hmatch : tileMatch req.pathname.data = some (z.data, x.data, y.data) := by
    rw [hdata]
    exact tileMatch_of_shape pre.data z.data x.data y.data hz hx hy hzd hxd hyd
  have hzmk : String.mk z.data = z := rfl
  have hxmk : String.mk x.data = x := rfl
  have hymk : String.mk y.data = y := rfl
  refine ⟨hmatch, ?_, ?_⟩
  · rw [derivedKey_eq req k c u hk, if_neg hm, hmatch]
  · cases hu : u (tileUrl z x y k) with
    | err msg =>
      simp [handleFetch, isFalsy_some_ne hk, hm, hmatch, hzmk, hxmk, hymk, hc, hu]
    | resp r =>
      by_cases hok : r.ok = true
      · simp [handleFetch, isFalsy_some_ne hk, hm, hmatch, hzmk, hxmk, hymk, hc,
          hu, hok]
      · simp [handleFetch, isFalsy_some_ne hk, hm, hmatch, hzmk, hxmk, hymk, hc,
          hu, hok]

theorem trailing_tile_segments_accepted_witness :
    ("k" : String) ≠ "" ∧
      (⟨"GET", "/anything/extra/1/2/3.pbf", []⟩ : Request).method ≠ "OPTIONS" ∧
      ("1" : String).data ≠ [] ∧
      (⟨"GET", "/anything/extra/1/2/3.pbf", []⟩ : Request).pathname =
        "/anything/extra" ++ "/" ++ "1" ++ "/" ++ "2" ++ "/" ++ "3" ++ ".pbf" ∧
      (tileMatch (⟨"GET", "/anything/extra/1/2/3.pbf", []⟩ :
          Request).pathname.data =
        some (("1" : String).data, ("2" : String).data, ("3" : String).data) ∧
      (handleFetch ⟨"GET", "/anything/extra/1/2/3.pbf", []⟩ (some "k") []
          (fun _ => .resp ⟨200, "OK", some "tile", []⟩)).derivedKey =
        some ⟨cacheKeyUrl "1" "2" "3", "GET", []⟩ ∧
      (handleFetch ⟨"GET", "/anything/extra/1/2/3.pbf", []⟩ (some "k") []
          (fun _ => .resp ⟨200, "OK", some "tile", []⟩)).upstreamUrls =
        [tileUrl "1" "2" "3" "k"]) :=
  ⟨by decide, by decide, by decide, by decide,
    trailing_tile_segments_accepted "/anything/extra" "1" "2" "3"
      ⟨"GET", "/anything/extra/1/2/3.pbf", []⟩ "k" []
      (fun _ => .resp ⟨200, "OK", some "tile", []⟩) (by decide) (by decide)
      (by decide) (by decide) (by decide) (by decide) (by decide) (by decide)
      (by decide) rfl⟩

/-- C10: every entry the handler writes to the cache store has status 200
and exactly the two headers `Content-Type: application/x-protobuf` and
`Cache-Control: public, max-age=86400` (upstream headers are not stored);
and every cache-hit response has status 200 with the fixed five-header set,
its `Age` value taken from the stored response and defaulting to `"0"`
when the stored response carries no `Age` header. -/
theorem cache_entry_and_hit_shape (req : Request) (k : Option String)
    (c : Cache) (u : Upstream) :
    (∀ w ∈ (handleFetch req k c u).cacheWrites,
        w.2.status = 200 ∧
          w.2.headers = [("Content-Type", "application/x-protobuf"),
                         ("Cache-Control", "public, max-age=86400")]) ∧
      (∀ zc xc yc stored, isFalsy k = false → req.method ≠ "OPTIONS" →
        tileMatch req.pathname.data = some (zc, xc, yc) →
        cacheMatch c ⟨cacheKeyUrl (String.mk zc) (String.mk xc) (String.mk yc),
          "GET", req.headers⟩ = some stored →
        (handleFetch req k c u).response.status = 200 ∧
          (handleFetch req k c u).response.headers =
            [("Content-Type", "application/x-protobuf"),
             ("Access-Control-Allow-Origin", "*"),
             ("Cache-Control", "public, max-age=86400"),
             ("CF-Cache-Status", "HIT"),
             ("Age", (headersGet stored.headers "Age").getD "0")]) := by
  constructor
  · intro w hw
    by_cases hf : isFalsy k = true
    · simp [handleFetch, hf] at hw
    · rw [Bool.not_eq_true] at hf
      by_cases hm : req.method = "OPTIONS"
      · simp [handleFetch, hf, hm] at hw
      · cases hp : tileMatch req.pathname.data with
        | none => simp [handleFetch, hf, hm, hp] at hw
        | some v =>
          obtain ⟨zc, xc, yc⟩ := v
          cases hcm : cacheMatch c ⟨cacheKeyUrl (String.mk zc) (String.mk xc)
              (String.mk yc), "GET", req.headers⟩ with
          | some stored => simp [handleFetch, hf, hm, hp, hcm] at hw
          | none =>
            cases hu : u (tileUrl (String.mk zc) (String.mk xc) (String.mk yc)
                (k.getD "")) with
            | err msg => simp [handleFetch, hf, hm, hp, hcm, hu] at hw
            | resp r =>
              by_cases hok : r.ok = true
              · simp [handleFetch, hf, hm, hp, hcm, hu, hok] at hw
                rw [hw]
                exact ⟨rfl, rfl⟩
              · simp [handleFetch, hf, hm, hp, hcm, hu, hok] at hw
  · intro zc xc yc stored hf hm hp hcm
    constructor <;> simp [handleFetch, hf, hm, hp, hcm]

/-- A concrete stored cache entry used to instantiate the cache-shape
claim: exactly the response the handler writes on a successful miss. -/
def sampleStored : Response :=
  { status := 200, statusText := "", body := some "tile",
    headers := [("Content-Type", "application/x-protobuf"),
                ("Cache-Control", "public, max-age=86400")] }

theorem cache_entry_and_hit_shape_witness :
    (("https://api.maptiler.com/tiles/v3-4326/1/2/3.pbf",
          sampleStored).2.status = 200 ∧
      ("https://api.maptiler.com/tiles/v3-4326/1/2/3.pbf",
          sampleStored).2.headers =
        [("Content-Type", "application/x-protobuf"),
         ("Cache-Control", "public, max-age=86400")]) ∧
      ((handleFetch ⟨"GET", "/1/2/3.pbf", []⟩ (some "k")
          [("https://api.maptiler.com/tiles/v3-4326/1/2/3.pbf", sampleStored)]
          (fun _ => .err "down")).response.status = 200 ∧
        (handleFetch ⟨"GET", "/1/2/3.pbf", []⟩ (some "k")
          [("https://api.maptiler.com/tiles/v3-4326/1/2/3.pbf", sampleStored)]
          (fun _ => .err "down")).response.headers =
          [("Content-Type", "application/x-protobuf"),
           ("Access-Control-Allow-Origin", "*"),
           ("Cache-Control", "public, max-age=86400"),
           ("CF-Cache-Status", "HIT"),
           ("Age", (headersGet sampleStored.headers "Age").getD "0")]) := by
  constructor
  · exact (cache_entry_and_hit_shape ⟨"GET", "/1/2/3.pbf", []⟩ (some "k") []
      (fun _ => .resp ⟨200, "OK", some "tile", []⟩)).1
      ("https://api.maptiler.com/tiles/v3-4326/1/2/3.pbf", sampleStored)
      (by decide)
  · exact (cache_entry_and_hit_shape ⟨"GET", "/1/2/3.pbf", []⟩ (some "k")
      [("https://api.maptiler.com/tiles/v3-4326/1/2/3.pbf", sampleStored)]
      (fun _ => .err "down")).2 ['1'] ['2'] ['3'] sampleStored rfl (by decide)
      rfl rfl
